import Mathlib

/-! # The v1alpha1 resource model of the MySQL operator

A shallow embedding of `pkg/apis/mysql/v1alpha1/types.go`: the four resources
(`Cluster`, `Backup`, `BackupSchedule`, `Restore`), their defaulting functions and
the read-only predicates on a `Cluster`.

Go memory is explicit where the code depends on it.

* A `*Cluster` is an address into a `ClusterStore`; `Cluster.EnsureDefaults` has a
  pointer receiver, writes through it and returns the same pointer.
* A `map[string]string` is `nil` or a reference to a map object; the map objects live
  in a `MapHeap`. `Backup.EnsureDefaults` (and its two siblings) has a value receiver:
  it works on a copy of the struct, whose `Labels` field still refers to the caller's
  map object when there is one.
* Machine integers are `Int` (`int32`) and `Nat` (`uint32`); the defaulting code only
  compares with zero and stores small literals, so no arithmetic can wrap there.
-/

namespace v1alpha1

/-! ## Constants -/

/-- An address of a heap object. A Go pointer or map value is an `Option Ptr`,
`none` being `nil`. -/
abbrev Ptr := Nat

/-- The default MySQL version to use if not specified explicitly by user. -/
def defaultVersion : String := "8.0.11"

/-- Default number of replicas (an untyped constant, stored into an `int32`). -/
def defaultReplicas : Int := 1

/-- Default base server id (an untyped constant, stored into a `uint32`). -/
def defaultBaseServerID : Nat := 1000

/-- Max safe value for BaseServerID: max MySQL server_id value minus max replication
group size (`uint32 = 4294967295 - 9`). -/
def maxBaseServerID : Nat := 4294967295 - 9

/-- The maximum number of members supported by InnoDB group replication. -/
def MaxInnoDBClusterMembers : Nat := 9

/-- The maximum supported length of a Cluster name. -/
def ClusterNameMaxLen : Nat := 28

/-- The MySQL versions accepted by validation. -/
def validVersions : List String := [defaultVersion]

/-! ## Kubernetes metadata

`metav1.TypeMeta`, `metav1.ObjectMeta`, `metav1.Time` and `corev1.LocalObjectReference`
are declared by Kubernetes, outside the repository. `ObjectMeta` is kept with its
identity fields and its two maps; no function of the package reads or writes another
field of it. -/

/-- The struct `corev1.LocalObjectReference`. -/
structure LocalObjectReference where
  Name : String
  deriving DecidableEq, Repr

/-- The struct `metav1.TypeMeta`. -/
structure TypeMeta where
  Kind : String
  APIVersion : String
  deriving DecidableEq, Repr

/-- The struct `metav1.ObjectMeta`; `Labels` and `Annotations` are Go maps, hence
references into the map heap. -/
structure ObjectMeta where
  Name : String
  GenerateName : String
  Namespace : String
  UID : String
  ResourceVersion : String
  Generation : Int
  Labels : Option Ptr
  Annotations : Option Ptr
  Finalizers : List String
  ClusterName : String
  deriving DecidableEq, Repr

/-- The type `metav1.Time`, as seconds since the epoch. -/
abbrev Time := Int

/-! ## Cluster -/

/-- ClusterSpec defines the attributes a user can specify when creating a cluster.
`Replicas` is an `int32`, `BaseServerID` a `uint32`; `NodeSelector` is a map;
`Affinity` and the two volume claim templates are pointers to Kubernetes core types
and are kept as addresses. -/
structure ClusterSpec where
  Version : String
  Replicas : Int
  BaseServerID : Nat
  MultiMaster : Bool
  NodeSelector : Option Ptr
  Affinity : Option Ptr
  VolumeClaimTemplate : Option Ptr
  BackupVolumeClaimTemplate : Option Ptr
  SecretRef : Option LocalObjectReference
  ConfigRef : Option LocalObjectReference
  SSLSecretRef : Option LocalObjectReference
  deriving DecidableEq, Repr

/-- ClusterPhase describes the state of the cluster (a Go string type). -/
abbrev ClusterPhase := String

def ClusterPhasePending : ClusterPhase := "Pending"
def ClusterPhaseRunning : ClusterPhase := "Running"
def ClusterPhaseSucceeded : ClusterPhase := "Succeeded"
def ClusterPhaseFailed : ClusterPhase := "Failed"
def ClusterPhaseUnknown : ClusterPhase := ""

/-- ValidClusterPhases denote the life-cycle states a cluster can be in. -/
def ValidClusterPhases : List ClusterPhase :=
  [ClusterPhasePending, ClusterPhaseRunning, ClusterPhaseSucceeded, ClusterPhaseFailed,
   ClusterPhaseUnknown]

/-- ClusterStatus defines the current status of a MySQL cluster. -/
structure ClusterStatus extends TypeMeta, ObjectMeta where
  Phase : ClusterPhase
  Errors : List String
  deriving DecidableEq, Repr

/-- Cluster represents a cluster spec and associated metadata. -/
structure Cluster extends TypeMeta, ObjectMeta where
  Spec : ClusterSpec
  Status : ClusterStatus
  deriving DecidableEq, Repr

/-- The `Cluster` objects of the Go heap, by address. -/
abbrev ClusterStore := Ptr → Cluster

/-- The store after `*p = v`. -/
def storeCluster (σ : ClusterStore) (p : Ptr) (v : Cluster) : ClusterStore :=
  fun q => if q = p then v else σ q

/-- The method `func (c *Cluster) EnsureDefaults() *Cluster`: three guarded writes through
the receiver, then the receiver itself is returned. -/
def Cluster.EnsureDefaults (σ : ClusterStore) (c : Ptr) : ClusterStore × Ptr :=
  let σ1 :=
    if (σ c).Spec.Replicas = 0 then
      storeCluster σ c { σ c with Spec := { (σ c).Spec with Replicas := defaultReplicas } }
    else σ
  let σ2 :=
    if (σ1 c).Spec.BaseServerID = 0 then
      storeCluster σ1 c
        { σ1 c with Spec := { (σ1 c).Spec with BaseServerID := defaultBaseServerID } }
    else σ1
  let σ3 :=
    if (σ2 c).Spec.Version = "" then
      storeCluster σ2 c { σ2 c with Spec := { (σ2 c).Spec with Version := defaultVersion } }
    else σ2
  (σ3, c)

/-- The method `func (c *Cluster) RequiresConfigMount() bool`, on the receiver's pointee. -/
def Cluster.RequiresConfigMount (c : Cluster) : Bool :=
  c.Spec.ConfigRef != none

/-- The method `func (c *Cluster) RequiresSecret() bool`, on the receiver's pointee. -/
def Cluster.RequiresSecret (c : Cluster) : Bool :=
  c.Spec.SecretRef == none

/-- The method `func (c *Cluster) RequiresCustomSSLSetup() bool`, on the receiver's
pointee. -/
def Cluster.RequiresCustomSSLSetup (c : Cluster) : Bool :=
  c.Spec.SSLSecretRef != none

/-- A field-addressed violation, as collected in a `field.ErrorList`. -/
structure FieldError where
  Field : String
  Detail : String
  deriving DecidableEq, Repr

/-- Modelled from the spec: `validateCluster` is declared in a file of the package that
is not among the sources. The rules are those of the specification: replicas within
`[1, MaxInnoDBClusterMembers]`, base server id within `[1, maxBaseServerID]`, version in
the whitelist, name no longer than `ClusterNameMaxLen`; every violation is collected,
under the path of its field. -/
def validateCluster (c : Cluster) : List FieldError :=
  (if 1 ≤ c.Spec.Replicas ∧ c.Spec.Replicas ≤ (MaxInnoDBClusterMembers : Int) then []
   else [⟨"spec.replicas", "must be between 1 and MaxInnoDBClusterMembers"⟩]) ++
  (if 1 ≤ c.Spec.BaseServerID ∧ c.Spec.BaseServerID ≤ maxBaseServerID then []
   else [⟨"spec.baseServerId", "must be between 1 and maxBaseServerID"⟩]) ++
  (if c.Spec.Version ∈ validVersions then []
   else [⟨"spec.version", "invalid version specified"⟩]) ++
  (if c.Name.length ≤ ClusterNameMaxLen then []
   else [⟨"metadata.name", "longer than ClusterNameMaxLen"⟩])

/-- The method `func (c *Cluster) Validate() error`: the aggregate of the violations,
`none` (a nil error) when there is none. -/
def Cluster.Validate (c : Cluster) : Option (List FieldError) :=
  let errs := validateCluster c
  if errs.isEmpty then none else some errs

/-! ## Maps -/

/-- The content of a `map[string]string` object. -/
abbrev GoMap := String → Option String

/-- The map objects of the Go heap by address, and the next address `make` hands out. -/
structure MapHeap where
  cell : Ptr → GoMap
  next : Ptr

/-- The expression `make(map[string]string)`: an empty map object at a new address. -/
def makeMap (h : MapHeap) : MapHeap × Ptr :=
  ({ cell := fun q => if q = h.next then (fun _ => none) else h.cell q, next := h.next + 1 },
   h.next)

/-- What a field of map type shows: nothing for a nil map, else the content of the
object it refers to. -/
def readMap (h : MapHeap) (m : Option Ptr) : Option GoMap :=
  m.map h.cell

/-- Modelled from the spec: `SetOperatorVersionLabel` is declared in a file of the package
that is not among the sources. It stamps the operator-version label on a label map:
`labelMap[constants.MySQLOperatorVersionLabel] = label`. The label key, a constant of
another package, is a parameter. Its one caller per resource passes a non-nil map. -/
def SetOperatorVersionLabel (MySQLOperatorVersionLabel : String) (h : MapHeap)
    (labelMap : Ptr) (label : String) : MapHeap :=
  { h with
    cell := fun q =>
      if q = labelMap then
        (fun k => if k = MySQLOperatorVersionLabel then some label else h.cell q k)
      else h.cell q }

/-- The body the three value-receiver `EnsureDefaults` methods have in common, on the
labels reference alone: the heap and the reference after it. A device of the proofs; each
method is shown below to be this body applied to its `Labels` field. -/
def stampLabels (MySQLOperatorVersionLabel buildVersion : String) (h : MapHeap)
    (labels : Option Ptr) : MapHeap × Option Ptr :=
  if buildVersion = "" then (h, labels)
  else
    match labels with
    | none =>
      (SetOperatorVersionLabel MySQLOperatorVersionLabel (makeMap h).1 h.next buildVersion,
       some h.next)
    | some p =>
      if (h.cell p MySQLOperatorVersionLabel).isSome then (h, some p)
      else (SetOperatorVersionLabel MySQLOperatorVersionLabel h p buildVersion, some p)

/-! ## Backup -/

/-- BackupExecutor represents the configuration of the tool performing the backup. -/
structure BackupExecutor where
  Name : String
  Databases : List String
  deriving DecidableEq, Repr

/-- BackupStorageProvider defines the configuration for storing a MySQL backup to a
storage service; `Config` is a map. -/
structure BackupStorageProvider where
  Name : String
  SecretRef : Option LocalObjectReference
  Config : Option Ptr
  deriving DecidableEq, Repr

/-- BackupSpec defines the specification for a MySQL backup; the three pointers are
kept by their pointees, which no function of the package writes. -/
structure BackupSpec where
  Executor : Option BackupExecutor
  StorageProvider : Option BackupStorageProvider
  Cluster : Option LocalObjectReference
  AgentScheduled : String
  deriving DecidableEq, Repr

/-- BackupPhase represents the current life-cycle phase of a Backup (a Go string type). -/
abbrev BackupPhase := String

def BackupPhaseUnknown : BackupPhase := ""
def BackupPhaseNew : BackupPhase := "New"
def BackupPhaseScheduled : BackupPhase := "Scheduled"
def BackupPhaseStarted : BackupPhase := "Started"
def BackupPhaseComplete : BackupPhase := "Complete"
def BackupPhaseFailed : BackupPhase := "Failed"

/-- BackupOutcome describes the location of a MySQL Backup. -/
structure BackupOutcome where
  Location : String
  deriving DecidableEq, Repr

/-- BackupStatus captures the current status of a MySQL backup. -/
structure BackupStatus where
  Phase : BackupPhase
  Outcome : BackupOutcome
  TimeStarted : Time
  TimeCompleted : Time
  deriving DecidableEq, Repr

/-- Backup is a MySQL Operator resource that represents a backup of a MySQL cluster. -/
structure Backup extends TypeMeta, ObjectMeta where
  Spec : BackupSpec
  Status : BackupStatus
  deriving DecidableEq, Repr

/-- The method `func (b Backup) EnsureDefaults() *Backup`, with the label key and the
result of `version.GetBuildVersion()` as parameters. The receiver is a copy of the
caller's struct; the result is the heap after the call and the struct `&b` points to.
`st` is the state after the nil check: the heap, the map `b.Labels` refers to, and `b`. -/
def Backup.EnsureDefaults (MySQLOperatorVersionLabel buildVersion : String) (h : MapHeap)
    (b : Backup) : MapHeap × Backup :=
  if buildVersion ≠ "" then
    let st : MapHeap × Ptr × Backup :=
      match b.Labels with
      | none => ((makeMap h).1, (makeMap h).2, { b with Labels := some (makeMap h).2 })
      | some p => (h, p, b)
    let hasKey := (st.1.cell st.2.1 MySQLOperatorVersionLabel).isSome
    if !hasKey then
      (SetOperatorVersionLabel MySQLOperatorVersionLabel st.1 st.2.1 buildVersion, st.2.2)
    else (st.1, st.2.2)
  else (h, b)

/-! ## BackupSchedule -/

/-- BackupScheduleSpec defines the specification for a MySQL backup schedule. -/
structure BackupScheduleSpec where
  Schedule : String
  BackupTemplate : BackupSpec
  deriving DecidableEq, Repr

/-- BackupSchedulePhase is a string representation of the lifecycle phase of a backup
schedule. -/
abbrev BackupSchedulePhase := String

def BackupSchedulePhaseNew : BackupSchedulePhase := "New"
def BackupSchedulePhaseEnabled : BackupSchedulePhase := "Enabled"
def BackupSchedulePhaseFailedValidation : BackupSchedulePhase := "FailedValidation"

/-- ScheduleStatus captures the current state of a MySQL backup schedule. -/
structure ScheduleStatus where
  Phase : BackupSchedulePhase
  LastBackup : Time
  deriving DecidableEq, Repr

/-- BackupSchedule is a MySQL Operator resource that represents a backup schedule of a
MySQL cluster. -/
structure BackupSchedule extends TypeMeta, ObjectMeta where
  Spec : BackupScheduleSpec
  Status : ScheduleStatus
  deriving DecidableEq, Repr

/-- The method `func (b BackupSchedule) EnsureDefaults() *BackupSchedule`; see
`Backup.EnsureDefaults` for the shape of the embedding. -/
def BackupSchedule.EnsureDefaults (MySQLOperatorVersionLabel buildVersion : String)
    (h : MapHeap) (b : BackupSchedule) : MapHeap × BackupSchedule :=
  if buildVersion ≠ "" then
    let st : MapHeap × Ptr × BackupSchedule :=
      match b.Labels with
      | none => ((makeMap h).1, (makeMap h).2, { b with Labels := some (makeMap h).2 })
      | some p => (h, p, b)
    let hasKey := (st.1.cell st.2.1 MySQLOperatorVersionLabel).isSome
    if !hasKey then
      (SetOperatorVersionLabel MySQLOperatorVersionLabel st.1 st.2.1 buildVersion, st.2.2)
    else (st.1, st.2.2)
  else (h, b)

/-! ## Restore -/

/-- RestoreSpec defines the specification for a restore of a MySQL backup. -/
structure RestoreSpec where
  ClusterRef : Option LocalObjectReference
  BackupRef : Option LocalObjectReference
  AgentScheduled : String
  deriving DecidableEq, Repr

/-- RestorePhase represents the current life-cycle phase of a Restore. -/
abbrev RestorePhase := String

def RestorePhaseUnknown : RestorePhase := ""
def RestorePhaseNew : RestorePhase := "New"
def RestorePhaseScheduled : RestorePhase := "Scheduled"
def RestorePhaseStarted : RestorePhase := "Started"
def RestorePhaseComplete : RestorePhase := "Complete"
def RestorePhaseFailed : RestorePhase := "Failed"

/-- RestoreStatus captures the current status of a MySQL restore. -/
structure RestoreStatus where
  Phase : RestorePhase
  TimeStarted : Time
  TimeCompleted : Time
  deriving DecidableEq, Repr

/-- Restore is a MySQL Operator resource that represents the restoration of backup of a
MySQL cluster. -/
structure Restore extends TypeMeta, ObjectMeta where
  Spec : RestoreSpec
  Status : RestoreStatus
  deriving DecidableEq, Repr

/-- The method `func (r Restore) EnsureDefaults() *Restore`; see `Backup.EnsureDefaults`
for the shape of the embedding. -/
def Restore.EnsureDefaults (MySQLOperatorVersionLabel buildVersion : String) (h : MapHeap)
    (r : Restore) : MapHeap × Restore :=
  if buildVersion ≠ "" then
    let st : MapHeap × Ptr × Restore :=
      match r.Labels with
      | none => ((makeMap h).1, (makeMap h).2, { r with Labels := some (makeMap h).2 })
      | some p => (h, p, r)
    let hasKey := (st.1.cell st.2.1 MySQLOperatorVersionLabel).isSome
    if !hasKey then
      (SetOperatorVersionLabel MySQLOperatorVersionLabel st.1 st.2.1 buildVersion, st.2.2)
    else (st.1, st.2.2)
  else (h, r)

/-! ## Backup phase transitions -/

/-- Modelled from the spec: the sources declare the backup phases and `BackupStatus` only;
the check of a phase transition is not among them. The legal moves are the arrows of the
specification, `New → Scheduled → Started → {Complete | Failed}`, the empty phase
`Unknown` counting as `New` (unprocessed); the terminal phases `Complete` and `Failed`
have no successor. -/
def backupPhaseSuccessors (p : BackupPhase) : List BackupPhase :=
  if p = BackupPhaseNew ∨ p = BackupPhaseUnknown then [BackupPhaseScheduled]
  else if p = BackupPhaseScheduled then [BackupPhaseStarted]
  else if p = BackupPhaseStarted then [BackupPhaseComplete, BackupPhaseFailed]
  else []

/-- Modelled from the spec: a status write that moves a backup to phase `next`, through
the transition check the specification asks for: a write that is not a forward transition
is rejected as illegal and leaves nothing written. -/
def BackupStatus.transition (s : BackupStatus) (next : BackupPhase) :
    Except String BackupStatus :=
  if next ∈ backupPhaseSuccessors s.Phase then .ok { s with Phase := next }
  else .error "illegal phase transition"

/-- How far along `New → Scheduled → Started → {Complete | Failed}` a phase is; a string
that is no declared phase counts as terminal, having no successor either. -/
def backupPhaseRank (p : BackupPhase) : Nat :=
  if p = BackupPhaseNew ∨ p = BackupPhaseUnknown then 0
  else if p = BackupPhaseScheduled then 1
  else if p = BackupPhaseStarted then 2
  else 3

/-! ## The fake client of backup schedules

`metav1.ListMeta`, `metav1.ListOptions`, the package `labels` and the fake of
`k8s.io/client-go/testing` are declared by Kubernetes, outside the repository. -/

/-- The struct `metav1.ListMeta`. -/
structure ListMeta where
  SelfLink : String
  ResourceVersion : String
  Continue : String
  deriving DecidableEq, Repr

/-- BackupScheduleList is a list of BackupSchedules. -/
structure BackupScheduleList extends TypeMeta, ListMeta where
  Items : List BackupSchedule
  deriving DecidableEq, Repr

/-- The struct `metav1.ListOptions`, with its selectors as the strings they are. -/
structure ListOptions where
  LabelSelector : String
  FieldSelector : String
  Watch : Bool
  ResourceVersion : String
  deriving DecidableEq, Repr

/-- The type `labels.Set`, the labels of an object as a selector is given them: what the
map field of the object shows. -/
abbrev labels.Set := Option GoMap

/-- The interface `labels.Selector`, by its method `Matches`. -/
structure labels.Selector where
  Matches : labels.Set → Bool

/-- The function `labels.Everything()`, documented to return a selector that matches all
labels. -/
def labels.Everything : labels.Selector := ⟨fun _ => true⟩

/-- The struct `schema.GroupVersionResource`. -/
structure GroupVersionResource where
  Group : String
  Version : String
  Resource : String
  deriving DecidableEq, Repr

/-- The struct `schema.GroupVersionKind`. -/
structure GroupVersionKind where
  Group : String
  Version : String
  Kind : String
  deriving DecidableEq, Repr

def backupschedulesResource : GroupVersionResource :=
  ⟨"mysql.oracle.com", "v1alpha1", "backupschedules"⟩

def backupschedulesKind : GroupVersionKind :=
  ⟨"mysql.oracle.com", "v1alpha1", "BackupSchedule"⟩

/-- The action `testing.NewListAction(resource, kind, namespace, opts)` describes. -/
structure ListAction where
  Resource : GroupVersionResource
  Kind : GroupVersionKind
  Namespace : String
  Opts : ListOptions
  deriving DecidableEq, Repr

/-- The fake clientset behind `c.Fake`, by what `Invokes` answers to a list action and a
default object: the object its reaction chain returns, `none` for nil, and the error. The
log of actions it keeps is left out. -/
structure FakeMysqlV1alpha1 where
  Invokes : ListAction → BackupScheduleList → Option BackupScheduleList × Option String

/-- FakeBackupSchedules implements BackupScheduleInterface. -/
structure FakeBackupSchedules where
  Fake : FakeMysqlV1alpha1
  ns : String

/-- The value `v1alpha1.BackupScheduleList{}`. -/
def zeroBackupScheduleList : BackupScheduleList :=
  { Kind := "", APIVersion := "", SelfLink := "", ResourceVersion := "", Continue := "",
    Items := [] }

/-- The method `func (c *FakeBackupSchedules) List(opts v1.ListOptions)`. The label selector
`testing.ExtractFromListOptions` reads out of the options, `none` for a nil one, is a
parameter; `h` is the heap the label maps of the items live in. The loop appends to
`list.Items` each item of the object that the selector matches. -/
def FakeBackupSchedules.List (ExtractFromListOptions : ListOptions → Option labels.Selector)
    (h : MapHeap) (c : FakeBackupSchedules) (opts : ListOptions) :
    Option BackupScheduleList × Option String :=
  let r := c.Fake.Invokes ⟨backupschedulesResource, backupschedulesKind, c.ns, opts⟩
    zeroBackupScheduleList
  match r.1 with
  | none => (none, r.2)
  | some obj =>
    let label : labels.Selector :=
      match ExtractFromListOptions opts with
      | none => labels.Everything
      | some l => l
    let items := obj.Items.foldl
      (fun acc item => if label.Matches (readMap h item.Labels) then acc ++ [item] else acc) []
    (some { zeroBackupScheduleList with Items := items }, r.2)

/-! ## Concrete inputs -/

/-- Metadata with the given name and labels reference, in namespace `default`, every
other field zero. -/
def metaOf (name : String) (labels : Option Ptr) : ObjectMeta :=
  { Name := name, GenerateName := "", Namespace := "default", UID := "", ResourceVersion := "",
    Generation := 0, Labels := labels, Annotations := none, Finalizers := [],
    ClusterName := "" }

/-- A cluster spec with the three defaulted fields as given, every other field zero. -/
def specOf (version : String) (replicas : Int) (baseServerID : Nat) : ClusterSpec :=
  { Version := version, Replicas := replicas, BaseServerID := baseServerID,
    MultiMaster := false, NodeSelector := none, Affinity := none,
    VolumeClaimTemplate := none, BackupVolumeClaimTemplate := none, SecretRef := none,
    ConfigRef := none, SSLSecretRef := none }

/-- A cluster named `name` with the given spec and an empty status. -/
def clusterOf (name : String) (spec : ClusterSpec) : Cluster :=
  { toTypeMeta := ⟨"Cluster", "mysql.oracle.com/v1alpha1"⟩,
    toObjectMeta := metaOf name none,
    Spec := spec,
    Status := { toTypeMeta := ⟨"", ""⟩, toObjectMeta := metaOf "" none,
                Phase := ClusterPhaseUnknown, Errors := [] } }

/-- A store holding the same cluster at every address. -/
def storeOf (c : Cluster) : ClusterStore := fun _ => c

/-- A heap in which every map object is empty and nothing is allocated yet. -/
def emptyHeap : MapHeap := { cell := fun _ _ => none, next := 0 }

/-- A heap whose only allocated map, at address 0, is `m`. -/
def heapOf (m : GoMap) : MapHeap :=
  { cell := fun q => if q = 0 then m else fun _ => none, next := 1 }

/-- A new backup of cluster `db` with the given labels reference. -/
def backupOf (labels : Option Ptr) : Backup :=
  { toTypeMeta := ⟨"Backup", "mysql.oracle.com/v1alpha1"⟩,
    toObjectMeta := metaOf "nightly" labels,
    Spec := { Executor := some ⟨"mysqldump", ["orders"]⟩,
              StorageProvider := some ⟨"s3", some ⟨"s3-credentials"⟩, none⟩,
              Cluster := some ⟨"db"⟩, AgentScheduled := "" },
    Status := { Phase := BackupPhaseNew, Outcome := ⟨""⟩, TimeStarted := 0, TimeCompleted := 0 } }

/-- A new backup schedule of cluster `db` with the given labels reference. -/
def scheduleOf (labels : Option Ptr) : BackupSchedule :=
  { toTypeMeta := ⟨"BackupSchedule", "mysql.oracle.com/v1alpha1"⟩,
    toObjectMeta := metaOf "every-night" labels,
    Spec := { Schedule := "0 3 * * *", BackupTemplate := (backupOf none).Spec },
    Status := { Phase := BackupSchedulePhaseNew, LastBackup := 0 } }

/-- A new restore of backup `nightly` into cluster `db` with the given labels reference. -/
def restoreOf (labels : Option Ptr) : Restore :=
  { toTypeMeta := ⟨"Restore", "mysql.oracle.com/v1alpha1"⟩,
    toObjectMeta := metaOf "rollback" labels,
    Spec := { ClusterRef := some ⟨"db"⟩, BackupRef := some ⟨"nightly"⟩, AgentScheduled := "" },
    Status := { Phase := RestorePhaseNew, TimeStarted := 0, TimeCompleted := 0 } }

/-- A schedule named `name` with the given labels reference. -/
def scheduleNamed (name : String) (labels : Option Ptr) : BackupSchedule :=
  { scheduleOf labels with Name := name }

/-- A fake client of namespace `default` whose store answers every list action with the
given items and no error. -/
def fakeOf (items : List BackupSchedule) : FakeBackupSchedules :=
  { Fake := ⟨fun _ _ => (some { zeroBackupScheduleList with Items := items }, none)⟩,
    ns := "default" }

/-- List options whose label selector is the given string. -/
def optsOf (selector : String) : ListOptions :=
  { LabelSelector := selector, FieldSelector := "", Watch := false, ResourceVersion := "" }

/-- A reading of list options that knows the one selector `tier=db` (the label `tier` is
`db`) and finds no selector in any other string. -/
def extractTier (opts : ListOptions) : Option labels.Selector :=
  if opts.LabelSelector = "tier=db" then
    some ⟨fun l => match l with
      | none => false
      | some m => m "tier" == some "db"⟩
  else none

/-! ## Theorems -/

/-! ### Cluster defaulting -/

/-- The pointer `Cluster.EnsureDefaults` returns is its receiver. -/
theorem Cluster_EnsureDefaults_ptr (σ : ClusterStore) (c : Ptr) :
    (Cluster.EnsureDefaults σ c).2 = c := rfl

/-- The receiver's pointee after `Cluster.EnsureDefaults`, field by field. -/
theorem Cluster_EnsureDefaults_pointee (σ : ClusterStore) (c : Ptr) :
    (Cluster.EnsureDefaults σ c).1 c =
      { σ c with
        Spec :=
          { (σ c).Spec with
            Replicas := if (σ c).Spec.Replicas = 0 then 1 else (σ c).Spec.Replicas
            BaseServerID :=
              if (σ c).Spec.BaseServerID = 0 then 1000 else (σ c).Spec.BaseServerID
            Version := if (σ c).Spec.Version = "" then "8.0.11" else (σ c).Spec.Version } } := by
  unfold Cluster.EnsureDefaults
  by_cases h1 : (σ c).Spec.Replicas = 0 <;> by_cases h2 : (σ c).Spec.BaseServerID = 0 <;>
    by_cases h3 : (σ c).Spec.Version = "" <;>
    simp [storeCluster, h1, h2, h3, defaultReplicas, defaultBaseServerID, defaultVersion]

/-- No other object of the store is written by `Cluster.EnsureDefaults`. -/
theorem Cluster_EnsureDefaults_elsewhere (σ : ClusterStore) (c q : Ptr) (hq : q ≠ c) :
    (Cluster.EnsureDefaults σ c).1 q = σ q := by
  unfold Cluster.EnsureDefaults
  by_cases h1 : (σ c).Spec.Replicas = 0 <;> by_cases h2 : (σ c).Spec.BaseServerID = 0 <;>
    by_cases h3 : (σ c).Spec.Version = "" <;>
    simp [storeCluster, h1, h2, h3, hq]

/-- C1: the cluster `Cluster.EnsureDefaults` returns has `Spec.Replicas = 1` if the
receiver had 0, `Spec.BaseServerID = 1000` if the receiver had 0, and
`Spec.Version = "8.0.11"` if the receiver had the empty string. -/
theorem Cluster_EnsureDefaults_fills_zero (σ : ClusterStore) (c : Ptr) :
    ((σ c).Spec.Replicas = 0 →
      ((Cluster.EnsureDefaults σ c).1 (Cluster.EnsureDefaults σ c).2).Spec.Replicas = 1) ∧
    ((σ c).Spec.BaseServerID = 0 →
      ((Cluster.EnsureDefaults σ c).1 (Cluster.EnsureDefaults σ c).2).Spec.BaseServerID
        = 1000) ∧
    ((σ c).Spec.Version = "" →
      ((Cluster.EnsureDefaults σ c).1 (Cluster.EnsureDefaults σ c).2).Spec.Version
        = "8.0.11") := by
  rw [Cluster_EnsureDefaults_ptr, Cluster_EnsureDefaults_pointee]
  refine ⟨fun h => ?_, fun h => ?_, fun h => ?_⟩ <;> simp [h]

/-- C1 at a cluster that leaves all three fields out. -/
theorem Cluster_EnsureDefaults_fills_zero_witness :
    (storeOf (clusterOf "db" (specOf "" 0 0)) 7).Spec.Replicas = 0 ∧
    ((Cluster.EnsureDefaults (storeOf (clusterOf "db" (specOf "" 0 0))) 7).1
      (Cluster.EnsureDefaults (storeOf (clusterOf "db" (specOf "" 0 0))) 7).2).Spec.Replicas
        = 1 ∧
    ((Cluster.EnsureDefaults (storeOf (clusterOf "db" (specOf "" 0 0))) 7).1
      (Cluster.EnsureDefaults (storeOf (clusterOf "db" (specOf "" 0 0))) 7).2).Spec.BaseServerID
        = 1000 ∧
    ((Cluster.EnsureDefaults (storeOf (clusterOf "db" (specOf "" 0 0))) 7).1
      (Cluster.EnsureDefaults (storeOf (clusterOf "db" (specOf "" 0 0))) 7).2).Spec.Version
        = "8.0.11" :=
  ⟨rfl,
   (Cluster_EnsureDefaults_fills_zero (storeOf (clusterOf "db" (specOf "" 0 0))) 7).1 rfl,
   (Cluster_EnsureDefaults_fills_zero (storeOf (clusterOf "db" (specOf "" 0 0))) 7).2.1 rfl,
   (Cluster_EnsureDefaults_fills_zero (storeOf (clusterOf "db" (specOf "" 0 0))) 7).2.2 rfl⟩

/-- C2: `Cluster.EnsureDefaults` is idempotent: called again on the cluster it returned,
it leaves the whole store, hence every field of that cluster, as it was and returns the
same cluster. -/
theorem Cluster_EnsureDefaults_idempotent (σ : ClusterStore) (c : Ptr) :
    Cluster.EnsureDefaults (Cluster.EnsureDefaults σ c).1 (Cluster.EnsureDefaults σ c).2
      = Cluster.EnsureDefaults σ c := by
  rw [Cluster_EnsureDefaults_ptr]
  refine Prod.ext ?_ rfl
  funext q
  by_cases hq : q = c
  · subst hq
    rw [Cluster_EnsureDefaults_pointee (Cluster.EnsureDefaults σ q).1 q,
      Cluster_EnsureDefaults_pointee σ q]
    by_cases h1 : (σ q).Spec.Replicas = 0 <;> by_cases h2 : (σ q).Spec.BaseServerID = 0 <;>
      by_cases h3 : (σ q).Spec.Version = "" <;> simp [h1, h2, h3]
  · rw [Cluster_EnsureDefaults_elsewhere _ c q hq, Cluster_EnsureDefaults_elsewhere σ c q hq]

/-- C3: `Cluster.EnsureDefaults` only fills zero-valued fields. The cluster it returns is
the receiver; each of `Replicas`, `BaseServerID`, `Version` that was non-zero keeps its
value, whatever it is (a negative `Replicas` too); every other field of the spec, the
status and the metadata are unchanged; and no other cluster of the store is touched. -/
theorem Cluster_EnsureDefaults_frame (σ : ClusterStore) (c : Ptr) :
    (Cluster.EnsureDefaults σ c).2 = c ∧
    ((σ c).Spec.Replicas ≠ 0 →
      ((Cluster.EnsureDefaults σ c).1 c).Spec.Replicas = (σ c).Spec.Replicas) ∧
    ((σ c).Spec.BaseServerID ≠ 0 →
      ((Cluster.EnsureDefaults σ c).1 c).Spec.BaseServerID = (σ c).Spec.BaseServerID) ∧
    ((σ c).Spec.Version ≠ "" →
      ((Cluster.EnsureDefaults σ c).1 c).Spec.Version = (σ c).Spec.Version) ∧
    ((Cluster.EnsureDefaults σ c).1 c).Spec.MultiMaster = (σ c).Spec.MultiMaster ∧
    ((Cluster.EnsureDefaults σ c).1 c).Spec.NodeSelector = (σ c).Spec.NodeSelector ∧
    ((Cluster.EnsureDefaults σ c).1 c).Spec.Affinity = (σ c).Spec.Affinity ∧
    ((Cluster.EnsureDefaults σ c).1 c).Spec.VolumeClaimTemplate
      = (σ c).Spec.VolumeClaimTemplate ∧
    ((Cluster.EnsureDefaults σ c).1 c).Spec.BackupVolumeClaimTemplate
      = (σ c).Spec.BackupVolumeClaimTemplate ∧
    ((Cluster.EnsureDefaults σ c).1 c).Spec.SecretRef = (σ c).Spec.SecretRef ∧
    ((Cluster.EnsureDefaults σ c).1 c).Spec.ConfigRef = (σ c).Spec.ConfigRef ∧
    ((Cluster.EnsureDefaults σ c).1 c).Spec.SSLSecretRef = (σ c).Spec.SSLSecretRef ∧
    ((Cluster.EnsureDefaults σ c).1 c).Status = (σ c).Status ∧
    ((Cluster.EnsureDefaults σ c).1 c).toTypeMeta = (σ c).toTypeMeta ∧
    ((Cluster.EnsureDefaults σ c).1 c).toObjectMeta = (σ c).toObjectMeta ∧
    (∀ q, q ≠ c → (Cluster.EnsureDefaults σ c).1 q = σ q) := by
  rw [Cluster_EnsureDefaults_pointee]
  refine ⟨rfl, fun h => ?_, fun h => ?_, fun h => ?_, rfl, rfl, rfl, rfl, rfl, rfl, rfl, rfl,
    rfl, rfl, rfl, fun q hq => Cluster_EnsureDefaults_elsewhere σ c q hq⟩ <;> simp [h]

/-- C3 at a cluster whose three fields are set, all out of range: -3 replicas, base
server id 4294967295, version "5.7". -/
theorem Cluster_EnsureDefaults_frame_witness :
    ((Cluster.EnsureDefaults (storeOf (clusterOf "db" (specOf "5.7" (-3) 4294967295))) 2).1
        2).Spec.Replicas = -3 ∧
    ((Cluster.EnsureDefaults (storeOf (clusterOf "db" (specOf "5.7" (-3) 4294967295))) 2).1
        2).Spec.BaseServerID = 4294967295 ∧
    ((Cluster.EnsureDefaults (storeOf (clusterOf "db" (specOf "5.7" (-3) 4294967295))) 2).1
        2).Spec.Version = "5.7" ∧
    (Cluster.EnsureDefaults (storeOf (clusterOf "db" (specOf "5.7" (-3) 4294967295))) 2).1 5
      = clusterOf "db" (specOf "5.7" (-3) 4294967295) :=
  ⟨(Cluster_EnsureDefaults_frame
      (storeOf (clusterOf "db" (specOf "5.7" (-3) 4294967295))) 2).2.1 (by decide),
   (Cluster_EnsureDefaults_frame
      (storeOf (clusterOf "db" (specOf "5.7" (-3) 4294967295))) 2).2.2.1 (by decide),
   (Cluster_EnsureDefaults_frame
      (storeOf (clusterOf "db" (specOf "5.7" (-3) 4294967295))) 2).2.2.2.1 (by decide),
   (Cluster_EnsureDefaults_frame
      (storeOf (clusterOf "db" (specOf "5.7" (-3) 4294967295))) 2).2.2.2.2.2.2.2.2.2.2.2.2.2.2.2
      5 (by decide)⟩

/-! ### The read-only predicates of a Cluster -/

/-- C4: `RequiresSecret` is true iff `Spec.SecretRef` is nil, `RequiresCustomSSLSetup`
iff `Spec.SSLSecretRef` is not nil, `RequiresConfigMount` iff `Spec.ConfigRef` is not nil;
and each depends on nothing but whether its field is nil: two clusters that agree there
get the same answer, whatever their other fields. -/
theorem Cluster_Requires_iff_refs (c : Cluster) :
    (c.RequiresSecret = true ↔ c.Spec.SecretRef = none) ∧
    (c.RequiresCustomSSLSetup = true ↔ c.Spec.SSLSecretRef ≠ none) ∧
    (c.RequiresConfigMount = true ↔ c.Spec.ConfigRef ≠ none) ∧
    (∀ d : Cluster, (d.Spec.SecretRef = none ↔ c.Spec.SecretRef = none) →
      d.RequiresSecret = c.RequiresSecret) ∧
    (∀ d : Cluster, (d.Spec.SSLSecretRef = none ↔ c.Spec.SSLSecretRef = none) →
      d.RequiresCustomSSLSetup = c.RequiresCustomSSLSetup) ∧
    (∀ d : Cluster, (d.Spec.ConfigRef = none ↔ c.Spec.ConfigRef = none) →
      d.RequiresConfigMount = c.RequiresConfigMount) := by
  refine ⟨?_, ?_, ?_, fun d h => ?_, fun d h => ?_, fun d h => ?_⟩
  · cases hs : c.Spec.SecretRef <;> simp [Cluster.RequiresSecret, hs]
  · cases hs : c.Spec.SSLSecretRef <;> simp [Cluster.RequiresCustomSSLSetup, hs]
  · cases hs : c.Spec.ConfigRef <;> simp [Cluster.RequiresConfigMount, hs]
  · cases hs : c.Spec.SecretRef <;> cases hd : d.Spec.SecretRef <;>
      simp_all [Cluster.RequiresSecret]
  · cases hs : c.Spec.SSLSecretRef <;> cases hd : d.Spec.SSLSecretRef <;>
      simp_all [Cluster.RequiresCustomSSLSetup, bne]
  · cases hs : c.Spec.ConfigRef <;> cases hd : d.Spec.ConfigRef <;>
      simp_all [Cluster.RequiresConfigMount, bne]

/-- C4 at two clusters that differ in name, version, replicas and base server id and
both have no secret reference. -/
theorem Cluster_Requires_iff_refs_witness :
    (clusterOf "other" (specOf "8.0.11" 3 42)).RequiresSecret
      = (clusterOf "db" (specOf "" 0 0)).RequiresSecret :=
  (Cluster_Requires_iff_refs (clusterOf "db" (specOf "" 0 0))).2.2.2.1
    (clusterOf "other" (specOf "8.0.11" 3 42)) (by decide)

/-! ### Server ids -/

/-- C5: `maxBaseServerID` is `2^32 - 1 - 9 = 4294967286`, and for a base server id in
`[1, maxBaseServerID]` and a replica count in `[1, MaxInnoDBClusterMembers]` (`= 9`) the
highest server id `BaseServerID + Replicas - 1` is at most `2^32 - 1`: reduced modulo
`2^32`, as 32-bit unsigned arithmetic does, it is itself, and so is the intermediate sum
`BaseServerID + Replicas`. -/
theorem maxBaseServerID_headroom (s : ClusterSpec)
    (hb1 : 1 ≤ s.BaseServerID) (hb2 : s.BaseServerID ≤ maxBaseServerID)
    (hr1 : 1 ≤ s.Replicas) (hr2 : s.Replicas ≤ (MaxInnoDBClusterMembers : Int)) :
    maxBaseServerID = 2 ^ 32 - 1 - 9 ∧ maxBaseServerID = 4294967286 ∧
    MaxInnoDBClusterMembers = 9 ∧
    (s.BaseServerID : Int) + s.Replicas - 1 ≤ 2 ^ 32 - 1 ∧
    ((s.BaseServerID : Int) + s.Replicas - 1) % 2 ^ 32
      = (s.BaseServerID : Int) + s.Replicas - 1 ∧
    ((s.BaseServerID : Int) + s.Replicas) % 2 ^ 32 = (s.BaseServerID : Int) + s.Replicas := by
  have hm : maxBaseServerID = 4294967286 := by decide
  have hk : MaxInnoDBClusterMembers = 9 := rfl
  rw [hm] at hb2
  rw [hk] at hr2
  refine ⟨by rw [hm]; norm_num, hm, hk, by norm_num; omega, ?_, ?_⟩
  · apply Int.emod_eq_of_lt <;> norm_num <;> omega
  · apply Int.emod_eq_of_lt <;> norm_num <;> omega

/-- C5 at the largest accepted spec: base server id 4294967286 with 9 replicas. -/
theorem maxBaseServerID_headroom_witness :
    ((4294967286 : Nat) : Int) + 9 - 1 ≤ 2 ^ 32 - 1 ∧
    (((4294967286 : Nat) : Int) + 9 - 1) % 2 ^ 32 = ((4294967286 : Nat) : Int) + 9 - 1 :=
  ⟨(maxBaseServerID_headroom (specOf "8.0.11" 9 4294967286)
      (by decide) (by decide) (by decide) (by decide)).2.2.2.1,
   (maxBaseServerID_headroom (specOf "8.0.11" 9 4294967286)
      (by decide) (by decide) (by decide) (by decide)).2.2.2.2.1⟩

/-- A cluster passes `Cluster.Validate` only with its replicas and its base server id in
range. -/
theorem Cluster_Validate_none_ranges (c : Cluster) (h : c.Validate = none) :
    (1 ≤ c.Spec.Replicas ∧ c.Spec.Replicas ≤ (MaxInnoDBClusterMembers : Int)) ∧
    (1 ≤ c.Spec.BaseServerID ∧ c.Spec.BaseServerID ≤ maxBaseServerID) := by
  unfold Cluster.Validate at h
  by_cases hr : 1 ≤ c.Spec.Replicas ∧ c.Spec.Replicas ≤ (MaxInnoDBClusterMembers : Int)
  · by_cases hb : 1 ≤ c.Spec.BaseServerID ∧ c.Spec.BaseServerID ≤ maxBaseServerID
    · exact ⟨hr, hb⟩
    · simp [validateCluster, hr, hb] at h
  · simp [validateCluster, hr] at h

/-- C6, as the code has it: for every cluster whose spec, after defaulting, has its
replicas in `[1, MaxInnoDBClusterMembers]` and its base server id in
`[1, maxBaseServerID]`, the base server id is at most 4294967286 and
`BaseServerID + Replicas - 1 <= 4294967294`, which is
`maxBaseServerID + MaxInnoDBClusterMembers - 1` and below `2^32`. -/
theorem Cluster_accepted_highest_server_id (σ : ClusterStore) (c : Ptr)
    (hr : 1 ≤ ((Cluster.EnsureDefaults σ c).1 (Cluster.EnsureDefaults σ c).2).Spec.Replicas ∧
      ((Cluster.EnsureDefaults σ c).1 (Cluster.EnsureDefaults σ c).2).Spec.Replicas
        ≤ (MaxInnoDBClusterMembers : Int))
    (hb : 1 ≤ ((Cluster.EnsureDefaults σ c).1 (Cluster.EnsureDefaults σ c).2).Spec.BaseServerID ∧
      ((Cluster.EnsureDefaults σ c).1 (Cluster.EnsureDefaults σ c).2).Spec.BaseServerID
        ≤ maxBaseServerID) :
    ((Cluster.EnsureDefaults σ c).1 (Cluster.EnsureDefaults σ c).2).Spec.BaseServerID
      ≤ 4294967286 ∧
    (((Cluster.EnsureDefaults σ c).1 (Cluster.EnsureDefaults σ c).2).Spec.BaseServerID : Int)
      + ((Cluster.EnsureDefaults σ c).1 (Cluster.EnsureDefaults σ c).2).Spec.Replicas - 1
      ≤ 4294967294 ∧
    (4294967294 : Int) = (maxBaseServerID : Int) + (MaxInnoDBClusterMembers : Int) - 1 ∧
    (4294967294 : Int) < 2 ^ 32 := by
  have hm : maxBaseServerID = 4294967286 := by decide
  have hk : MaxInnoDBClusterMembers = 9 := rfl
  obtain ⟨_, hr2⟩ := hr
  obtain ⟨_, hb2⟩ := hb
  rw [hm] at hb2 ⊢
  rw [hk] at hr2 ⊢
  push_cast at hr2
  refine ⟨hb2, by omega, by norm_num, by norm_num⟩

/-- C6, amended, at the cluster with base server id 4294967286, 9 replicas and no version:
after defaulting it is within both ranges, and the bound 4294967294 is met. -/
theorem Cluster_accepted_highest_server_id_witness :
    ((Cluster.EnsureDefaults (storeOf (clusterOf "db" (specOf "" 9 4294967286))) 0).1
        (Cluster.EnsureDefaults (storeOf (clusterOf "db" (specOf "" 9 4294967286))) 0).2
      ).Spec.BaseServerID ≤ 4294967286 ∧
    (((Cluster.EnsureDefaults (storeOf (clusterOf "db" (specOf "" 9 4294967286))) 0).1
        (Cluster.EnsureDefaults (storeOf (clusterOf "db" (specOf "" 9 4294967286))) 0).2
      ).Spec.BaseServerID : Int)
      + ((Cluster.EnsureDefaults (storeOf (clusterOf "db" (specOf "" 9 4294967286))) 0).1
        (Cluster.EnsureDefaults (storeOf (clusterOf "db" (specOf "" 9 4294967286))) 0).2
      ).Spec.Replicas - 1 ≤ 4294967294 ∧
    (((Cluster.EnsureDefaults (storeOf (clusterOf "db" (specOf "" 9 4294967286))) 0).1
        (Cluster.EnsureDefaults (storeOf (clusterOf "db" (specOf "" 9 4294967286))) 0).2
      ).Spec.BaseServerID : Int)
      + ((Cluster.EnsureDefaults (storeOf (clusterOf "db" (specOf "" 9 4294967286))) 0).1
        (Cluster.EnsureDefaults (storeOf (clusterOf "db" (specOf "" 9 4294967286))) 0).2
      ).Spec.Replicas - 1 = 4294967294 :=
  ⟨(Cluster_accepted_highest_server_id (storeOf (clusterOf "db" (specOf "" 9 4294967286))) 0
      (by decide) (by decide)).1,
   (Cluster_accepted_highest_server_id (storeOf (clusterOf "db" (specOf "" 9 4294967286))) 0
      (by decide) (by decide)).2.1,
   by decide⟩

/-- C6, as stated, fails. The cluster with base server id 4294967286, 2 replicas and
version "8.0.11" is left as it is by defaulting; its replicas are in
`[1, MaxInnoDBClusterMembers]` and its base server id is in `[1, maxBaseServerID]`, the
range the field is documented with; and its `BaseServerID + Replicas - 1` is 4294967287,
above 4294967286. -/
theorem Cluster_accepted_above_maxBaseServerID :
    ((Cluster.EnsureDefaults (storeOf (clusterOf "db" (specOf "8.0.11" 2 4294967286))) 0).1
        (Cluster.EnsureDefaults (storeOf (clusterOf "db" (specOf "8.0.11" 2 4294967286))) 0).2
      ).Spec = specOf "8.0.11" 2 4294967286 ∧
    (1 ≤ (specOf "8.0.11" 2 4294967286).Replicas ∧
      (specOf "8.0.11" 2 4294967286).Replicas ≤ (MaxInnoDBClusterMembers : Int)) ∧
    (1 ≤ (specOf "8.0.11" 2 4294967286).BaseServerID ∧
      (specOf "8.0.11" 2 4294967286).BaseServerID ≤ maxBaseServerID) ∧
    ((specOf "8.0.11" 2 4294967286).BaseServerID : Int)
      + (specOf "8.0.11" 2 4294967286).Replicas - 1 = 4294967287 ∧
    ¬ (((specOf "8.0.11" 2 4294967286).BaseServerID : Int)
      + (specOf "8.0.11" 2 4294967286).Replicas - 1 ≤ 4294967286) := by
  refine ⟨by decide, by decide, by decide, by decide, by decide⟩

/-! ### The operator-version label -/

/-- With no build version the common body does nothing. -/
theorem stampLabels_empty (key : String) (h : MapHeap) (l : Option Ptr) :
    stampLabels key "" h l = (h, l) := by
  simp [stampLabels]

/-- The common body leaves a labels reference that is not nil as it is. -/
theorem stampLabels_ref_some (key v : String) (h : MapHeap) (p : Ptr) :
    (stampLabels key v h (some p)).2 = some p := by
  unfold stampLabels
  by_cases hv : v = ""
  · simp [hv]
  · by_cases hk : (h.cell p key).isSome <;> simp [hv, hk]

/-- The labels the common body leaves, with a build version: the labels before when they
hold the key already, else the labels before (none for a nil map) and the key mapped to
the build version. -/
theorem stampLabels_content (key v : String) (hv : v ≠ "") (h : MapHeap) (l : Option Ptr) :
    readMap (stampLabels key v h l).1 (stampLabels key v h l).2 =
      some (if (((readMap h l).getD (fun _ => none)) key).isSome
        then (readMap h l).getD (fun _ => none)
        else fun k => if k = key then some v else ((readMap h l).getD (fun _ => none)) k) := by
  unfold stampLabels
  cases l with
  | none => simp [hv, readMap, SetOperatorVersionLabel, makeMap]
  | some p =>
    by_cases hk : (h.cell p key).isSome <;>
      simp [hv, hk, readMap, SetOperatorVersionLabel]

/-- The common body writes no map object but the one the labels refer to afterwards. -/
theorem stampLabels_elsewhere (key v : String) (h : MapHeap) (l : Option Ptr) (q : Ptr)
    (hq : some q ≠ (stampLabels key v h l).2) : (stampLabels key v h l).1.cell q = h.cell q := by
  unfold stampLabels at hq ⊢
  by_cases hv : v = ""
  · simp [hv]
  · cases l with
    | none =>
      simp [hv] at hq
      simp [hv, SetOperatorVersionLabel, makeMap, hq]
    | some p =>
      by_cases hk : (h.cell p key).isSome
      · simp [hv, hk]
      · simp [hv, hk] at hq
        simp [hv, hk, SetOperatorVersionLabel, hq]

/-- The common body is idempotent. -/
theorem stampLabels_idempotent (key v : String) (h : MapHeap) (l : Option Ptr) :
    stampLabels key v (stampLabels key v h l).1 (stampLabels key v h l).2
      = stampLabels key v h l := by
  unfold stampLabels
  by_cases hv : v = ""
  · simp [hv]
  · cases l with
    | none => simp [hv, SetOperatorVersionLabel, makeMap]
    | some p =>
      by_cases hk : (h.cell p key).isSome
      · simp [hv, hk]
      · simp [hv, hk, SetOperatorVersionLabel]

/-- On a nil labels reference and with a build version, the common body allocates a map
that holds the key and refers to it. -/
theorem stampLabels_nil (key v : String) (hv : v ≠ "") (h : MapHeap) :
    (stampLabels key v h none).2 = some h.next ∧
    (stampLabels key v h none).1.cell h.next key = some v := by
  simp [stampLabels, hv, SetOperatorVersionLabel]

/-- `Backup.EnsureDefaults` is the common body on the labels of a copy of the receiver. -/
theorem Backup_EnsureDefaults_eq (key v : String) (h : MapHeap) (b : Backup) :
    Backup.EnsureDefaults key v h b =
      ((stampLabels key v h b.Labels).1, { b with Labels := (stampLabels key v h b.Labels).2 }) := by
  obtain ⟨tm, ⟨n, g, ns, u, rv, gen, l, a, f, cn⟩, sp, st⟩ := b
  unfold Backup.EnsureDefaults stampLabels
  by_cases hv : v = ""
  · simp [hv]
  · cases l with
    | none => simp [hv, SetOperatorVersionLabel, makeMap]
    | some p => by_cases hk : (h.cell p key).isSome <;> simp [hv, hk]

/-- `BackupSchedule.EnsureDefaults` is the common body on the labels of a copy of the
receiver. -/
theorem BackupSchedule_EnsureDefaults_eq (key v : String) (h : MapHeap) (b : BackupSchedule) :
    BackupSchedule.EnsureDefaults key v h b =
      ((stampLabels key v h b.Labels).1, { b with Labels := (stampLabels key v h b.Labels).2 }) := by
  obtain ⟨tm, ⟨n, g, ns, u, rv, gen, l, a, f, cn⟩, sp, st⟩ := b
  unfold BackupSchedule.EnsureDefaults stampLabels
  by_cases hv : v = ""
  · simp [hv]
  · cases l with
    | none => simp [hv, SetOperatorVersionLabel, makeMap]
    | some p => by_cases hk : (h.cell p key).isSome <;> simp [hv, hk]

/-- `Restore.EnsureDefaults` is the common body on the labels of a copy of the receiver. -/
theorem Restore_EnsureDefaults_eq (key v : String) (h : MapHeap) (r : Restore) :
    Restore.EnsureDefaults key v h r =
      ((stampLabels key v h r.Labels).1, { r with Labels := (stampLabels key v h r.Labels).2 }) := by
  obtain ⟨tm, ⟨n, g, ns, u, rv, gen, l, a, f, cn⟩, sp, st⟩ := r
  unfold Restore.EnsureDefaults stampLabels
  by_cases hv : v = ""
  · simp [hv]
  · cases l with
    | none => simp [hv, SetOperatorVersionLabel, makeMap]
    | some p => by_cases hk : (h.cell p key).isSome <;> simp [hv, hk]

/-- The heap after `Backup.EnsureDefaults`, the labels of the struct it returns, and the
rest of that struct. -/
theorem Backup_EnsureDefaults_parts (key v : String) (h : MapHeap) (b : Backup) :
    (Backup.EnsureDefaults key v h b).1 = (stampLabels key v h b.Labels).1 ∧
    (Backup.EnsureDefaults key v h b).2.Labels = (stampLabels key v h b.Labels).2 ∧
    { (Backup.EnsureDefaults key v h b).2 with Labels := b.Labels } = b := by
  rw [Backup_EnsureDefaults_eq]
  exact ⟨rfl, rfl, rfl⟩

/-- The heap after `BackupSchedule.EnsureDefaults`, the labels of the struct it returns,
and the rest of that struct. -/
theorem BackupSchedule_EnsureDefaults_parts (key v : String) (h : MapHeap)
    (b : BackupSchedule) :
    (BackupSchedule.EnsureDefaults key v h b).1 = (stampLabels key v h b.Labels).1 ∧
    (BackupSchedule.EnsureDefaults key v h b).2.Labels = (stampLabels key v h b.Labels).2 ∧
    { (BackupSchedule.EnsureDefaults key v h b).2 with Labels := b.Labels } = b := by
  rw [BackupSchedule_EnsureDefaults_eq]
  exact ⟨rfl, rfl, rfl⟩

/-- The heap after `Restore.EnsureDefaults`, the labels of the struct it returns, and the
rest of that struct. -/
theorem Restore_EnsureDefaults_parts (key v : String) (h : MapHeap) (r : Restore) :
    (Restore.EnsureDefaults key v h r).1 = (stampLabels key v h r.Labels).1 ∧
    (Restore.EnsureDefaults key v h r).2.Labels = (stampLabels key v h r.Labels).2 ∧
    { (Restore.EnsureDefaults key v h r).2 with Labels := r.Labels } = r := by
  rw [Restore_EnsureDefaults_eq]
  exact ⟨rfl, rfl, rfl⟩

/-- The labels the common body leaves, with a build version, case by case: labels that
hold the key stay as they are; labels that do not hold it gain the key mapped to the build
version; a nil map becomes the map of that one key. -/
theorem stampLabels_cases (key v : String) (hv : v ≠ "") (h : MapHeap) (l : Option Ptr) :
    (∀ m : GoMap, readMap h l = some m → (m key).isSome = true →
      readMap (stampLabels key v h l).1 (stampLabels key v h l).2 = some m) ∧
    (∀ m : GoMap, readMap h l = some m → m key = none →
      readMap (stampLabels key v h l).1 (stampLabels key v h l).2
        = some (fun k => if k = key then some v else m k)) ∧
    (readMap h l = none →
      readMap (stampLabels key v h l).1 (stampLabels key v h l).2
        = some (fun k => if k = key then some v else none)) := by
  rw [stampLabels_content key v hv h l]
  refine ⟨fun m hm hk => ?_, fun m hm hk => ?_, fun hn => ?_⟩
  · simp [hm, hk]
  · simp [hm, hk]
  · simp [hn]

/-- C7: with a non-empty build version `v`, for each of Backup, BackupSchedule and
Restore, the labels of the resource `EnsureDefaults` returns are the input's labels when
these hold the operator-version key already, else the input's labels and the key mapped
to `v`, and the map of that one key when the input has no labels map; every field but the
labels equals the input's; and no map object but the labels is written. -/
theorem EnsureDefaults_stamps_operator_version (key v : String) (hv : v ≠ "") (h : MapHeap)
    (b : Backup) (s : BackupSchedule) (r : Restore) :
    ((∀ m : GoMap, readMap h b.Labels = some m → (m key).isSome = true →
        readMap (Backup.EnsureDefaults key v h b).1 (Backup.EnsureDefaults key v h b).2.Labels
          = some m) ∧
      (∀ m : GoMap, readMap h b.Labels = some m → m key = none →
        readMap (Backup.EnsureDefaults key v h b).1 (Backup.EnsureDefaults key v h b).2.Labels
          = some (fun k => if k = key then some v else m k)) ∧
      (readMap h b.Labels = none →
        readMap (Backup.EnsureDefaults key v h b).1 (Backup.EnsureDefaults key v h b).2.Labels
          = some (fun k => if k = key then some v else none)) ∧
      { (Backup.EnsureDefaults key v h b).2 with Labels := b.Labels } = b ∧
      (∀ q, some q ≠ (Backup.EnsureDefaults key v h b).2.Labels →
        (Backup.EnsureDefaults key v h b).1.cell q = h.cell q)) ∧
    ((∀ m : GoMap, readMap h s.Labels = some m → (m key).isSome = true →
        readMap (BackupSchedule.EnsureDefaults key v h s).1
          (BackupSchedule.EnsureDefaults key v h s).2.Labels = some m) ∧
      (∀ m : GoMap, readMap h s.Labels = some m → m key = none →
        readMap (BackupSchedule.EnsureDefaults key v h s).1
          (BackupSchedule.EnsureDefaults key v h s).2.Labels
          = some (fun k => if k = key then some v else m k)) ∧
      (readMap h s.Labels = none →
        readMap (BackupSchedule.EnsureDefaults key v h s).1
          (BackupSchedule.EnsureDefaults key v h s).2.Labels
          = some (fun k => if k = key then some v else none)) ∧
      { (BackupSchedule.EnsureDefaults key v h s).2 with Labels := s.Labels } = s ∧
      (∀ q, some q ≠ (BackupSchedule.EnsureDefaults key v h s).2.Labels →
        (BackupSchedule.EnsureDefaults key v h s).1.cell q = h.cell q)) ∧
    ((∀ m : GoMap, readMap h r.Labels = some m → (m key).isSome = true →
        readMap (Restore.EnsureDefaults key v h r).1 (Restore.EnsureDefaults key v h r).2.Labels
          = some m) ∧
      (∀ m : GoMap, readMap h r.Labels = some m → m key = none →
        readMap (Restore.EnsureDefaults key v h r).1 (Restore.EnsureDefaults key v h r).2.Labels
          = some (fun k => if k = key then some v else m k)) ∧
      (readMap h r.Labels = none →
        readMap (Restore.EnsureDefaults key v h r).1 (Restore.EnsureDefaults key v h r).2.Labels
          = some (fun k => if k = key then some v else none)) ∧
      { (Restore.EnsureDefaults key v h r).2 with Labels := r.Labels } = r ∧
      (∀ q, some q ≠ (Restore.EnsureDefaults key v h r).2.Labels →
        (Restore.EnsureDefaults key v h r).1.cell q = h.cell q)) := by
  obtain ⟨b1, b2, b3⟩ := Backup_EnsureDefaults_parts key v h b
  obtain ⟨s1, s2, s3⟩ := BackupSchedule_EnsureDefaults_parts key v h s
  obtain ⟨r1, r2, r3⟩ := Restore_EnsureDefaults_parts key v h r
  refine ⟨⟨?_, ?_, ?_, b3, ?_⟩, ⟨?_, ?_, ?_, s3, ?_⟩, ⟨?_, ?_, ?_, r3, ?_⟩⟩
  · rw [b1, b2]; exact (stampLabels_cases key v hv h b.Labels).1
  · rw [b1, b2]; exact (stampLabels_cases key v hv h b.Labels).2.1
  · rw [b1, b2]; exact (stampLabels_cases key v hv h b.Labels).2.2
  · rw [b1, b2]; exact fun q hq => stampLabels_elsewhere key v h b.Labels q hq
  · rw [s1, s2]; exact (stampLabels_cases key v hv h s.Labels).1
  · rw [s1, s2]; exact (stampLabels_cases key v hv h s.Labels).2.1
  · rw [s1, s2]; exact (stampLabels_cases key v hv h s.Labels).2.2
  · rw [s1, s2]; exact fun q hq => stampLabels_elsewhere key v h s.Labels q hq
  · rw [r1, r2]; exact (stampLabels_cases key v hv h r.Labels).1
  · rw [r1, r2]; exact (stampLabels_cases key v hv h r.Labels).2.1
  · rw [r1, r2]; exact (stampLabels_cases key v hv h r.Labels).2.2
  · rw [r1, r2]; exact fun q hq => stampLabels_elsewhere key v h r.Labels q hq

/-- C7 at build version "0.3.0": a backup without a labels map gets the map of the one
key, and a restore whose labels hold the key with value "0.1.0" keeps them. -/
theorem EnsureDefaults_stamps_operator_version_witness :
    readMap (Backup.EnsureDefaults "operator-version" "0.3.0"
        (heapOf (fun k => if k = "operator-version" then some "0.1.0" else none))
        (backupOf none)).1
      (Backup.EnsureDefaults "operator-version" "0.3.0"
        (heapOf (fun k => if k = "operator-version" then some "0.1.0" else none))
        (backupOf none)).2.Labels
      = some (fun k => if k = "operator-version" then some "0.3.0" else none) ∧
    readMap (Restore.EnsureDefaults "operator-version" "0.3.0"
        (heapOf (fun k => if k = "operator-version" then some "0.1.0" else none))
        (restoreOf (some 0))).1
      (Restore.EnsureDefaults "operator-version" "0.3.0"
        (heapOf (fun k => if k = "operator-version" then some "0.1.0" else none))
        (restoreOf (some 0))).2.Labels
      = some (fun k => if k = "operator-version" then some "0.1.0" else none) :=
  ⟨(EnsureDefaults_stamps_operator_version "operator-version" "0.3.0" (by decide)
      (heapOf (fun k => if k = "operator-version" then some "0.1.0" else none))
      (backupOf none) (scheduleOf none) (restoreOf (some 0))).1.2.2.1 rfl,
   (EnsureDefaults_stamps_operator_version "operator-version" "0.3.0" (by decide)
      (heapOf (fun k => if k = "operator-version" then some "0.1.0" else none))
      (backupOf none) (scheduleOf none) (restoreOf (some 0))).2.2.1
      (fun k => if k = "operator-version" then some "0.1.0" else none) rfl rfl⟩

/-- C8: with the empty build version, for each of Backup, BackupSchedule and Restore,
`EnsureDefaults` returns a copy equal to its input in every field and leaves the heap as
it was: no label is written, no map is allocated, a nil labels map stays nil. -/
theorem EnsureDefaults_without_build_version (key : String) (h : MapHeap) (b : Backup)
    (s : BackupSchedule) (r : Restore) :
    Backup.EnsureDefaults key "" h b = (h, b) ∧
    BackupSchedule.EnsureDefaults key "" h s = (h, s) ∧
    Restore.EnsureDefaults key "" h r = (h, r) := by
  refine ⟨?_, ?_, ?_⟩
  · simp [Backup.EnsureDefaults]
  · simp [BackupSchedule.EnsureDefaults]
  · simp [Restore.EnsureDefaults]

/-- C9: for each of Backup, BackupSchedule and Restore and every build version, empty or
not, `EnsureDefaults` applied to its own result, in the heap it left, returns that result
and leaves that heap. -/
theorem EnsureDefaults_labels_idempotent (key v : String) (h : MapHeap) (b : Backup)
    (s : BackupSchedule) (r : Restore) :
    Backup.EnsureDefaults key v (Backup.EnsureDefaults key v h b).1
        (Backup.EnsureDefaults key v h b).2 = Backup.EnsureDefaults key v h b ∧
    BackupSchedule.EnsureDefaults key v (BackupSchedule.EnsureDefaults key v h s).1
        (BackupSchedule.EnsureDefaults key v h s).2 = BackupSchedule.EnsureDefaults key v h s ∧
    Restore.EnsureDefaults key v (Restore.EnsureDefaults key v h r).1
        (Restore.EnsureDefaults key v h r).2 = Restore.EnsureDefaults key v h r := by
  refine ⟨?_, ?_, ?_⟩
  · rw [Backup_EnsureDefaults_eq key v h b, Backup_EnsureDefaults_eq]
    simp only [stampLabels_idempotent]
  · rw [BackupSchedule_EnsureDefaults_eq key v h s, BackupSchedule_EnsureDefaults_eq]
    simp only [stampLabels_idempotent]
  · rw [Restore_EnsureDefaults_eq key v h r, Restore_EnsureDefaults_eq]
    simp only [stampLabels_idempotent]

/-- C10, as the code has it. `Cluster.EnsureDefaults` writes through its receiver and
returns it: the instance after the call is the cluster returned. The three other methods
work on a copy of the instance and return the copy. The instance and the copy are equal in
every field, the labels map they share included, when the instance has a labels map or the
build version is empty; with a labels map and a build version, that shared map holds the
operator-version key after the call. When the instance has no labels map and there is a
build version, the instance still has no labels map after the call, and the copy alone
refers to a new map that holds the key. -/
theorem EnsureDefaults_instance_after (σ : ClusterStore) (c : Ptr) (key v : String)
    (h : MapHeap) (b : Backup) (s : BackupSchedule) (r : Restore) :
    ((Cluster.EnsureDefaults σ c).2 = c ∧
      (Cluster.EnsureDefaults σ c).1 c
        = (Cluster.EnsureDefaults σ c).1 (Cluster.EnsureDefaults σ c).2) ∧
    ((b.Labels ≠ none ∨ v = "" → (Backup.EnsureDefaults key v h b).2 = b) ∧
      (∀ p, b.Labels = some p → v ≠ "" →
        ((Backup.EnsureDefaults key v h b).1.cell p key).isSome = true) ∧
      (b.Labels = none → v ≠ "" →
        readMap (Backup.EnsureDefaults key v h b).1 b.Labels = none ∧
        (Backup.EnsureDefaults key v h b).2.Labels = some h.next ∧
        (Backup.EnsureDefaults key v h b).1.cell h.next key = some v)) ∧
    ((s.Labels ≠ none ∨ v = "" → (BackupSchedule.EnsureDefaults key v h s).2 = s) ∧
      (∀ p, s.Labels = some p → v ≠ "" →
        ((BackupSchedule.EnsureDefaults key v h s).1.cell p key).isSome = true) ∧
      (s.Labels = none → v ≠ "" →
        readMap (BackupSchedule.EnsureDefaults key v h s).1 s.Labels = none ∧
        (BackupSchedule.EnsureDefaults key v h s).2.Labels = some h.next ∧
        (BackupSchedule.EnsureDefaults key v h s).1.cell h.next key = some v)) ∧
    ((r.Labels ≠ none ∨ v = "" → (Restore.EnsureDefaults key v h r).2 = r) ∧
      (∀ p, r.Labels = some p → v ≠ "" →
        ((Restore.EnsureDefaults key v h r).1.cell p key).isSome = true) ∧
      (r.Labels = none → v ≠ "" →
        readMap (Restore.EnsureDefaults key v h r).1 r.Labels = none ∧
        (Restore.EnsureDefaults key v h r).2.Labels = some h.next ∧
        (Restore.EnsureDefaults key v h r).1.cell h.next key = some v)) := by
  have same : ∀ l : Option Ptr, l ≠ none ∨ v = "" → (stampLabels key v h l).2 = l := by
    intro l hl
    rcases hl with hl | hl
    · obtain ⟨p, rfl⟩ := Option.ne_none_iff_exists'.mp hl
      exact stampLabels_ref_some key v h p
    · subst hl
      rw [stampLabels_empty]
  have held : ∀ p, v ≠ "" → ((stampLabels key v h (some p)).1.cell p key).isSome = true := by
    intro p hv
    unfold stampLabels
    by_cases hk : (h.cell p key).isSome <;> simp [hv, hk, SetOperatorVersionLabel]
  obtain ⟨b1, b2, b3⟩ := Backup_EnsureDefaults_parts key v h b
  obtain ⟨s1, s2, s3⟩ := BackupSchedule_EnsureDefaults_parts key v h s
  obtain ⟨r1, r2, r3⟩ := Restore_EnsureDefaults_parts key v h r
  refine ⟨⟨rfl, rfl⟩, ⟨fun hl => ?_, fun p hp hv => ?_, fun hn hv => ?_⟩,
    ⟨fun hl => ?_, fun p hp hv => ?_, fun hn hv => ?_⟩,
    ⟨fun hl => ?_, fun p hp hv => ?_, fun hn hv => ?_⟩⟩
  · rw [Backup_EnsureDefaults_eq, same b.Labels hl]
  · rw [b1, hp]; exact held p hv
  · rw [b1, b2, hn]; exact ⟨rfl, stampLabels_nil key v hv h⟩
  · rw [BackupSchedule_EnsureDefaults_eq, same s.Labels hl]
  · rw [s1, hp]; exact held p hv
  · rw [s1, s2, hn]; exact ⟨rfl, stampLabels_nil key v hv h⟩
  · rw [Restore_EnsureDefaults_eq, same r.Labels hl]
  · rw [r1, hp]; exact held p hv
  · rw [r1, r2, hn]; exact ⟨rfl, stampLabels_nil key v hv h⟩

/-- C10, amended, at build version "0.3.0": a backup schedule whose labels map, at
address 0, is empty equals the copy returned, and that map holds the key after the call;
a restore called with the empty build version equals the copy returned. -/
theorem EnsureDefaults_instance_after_witness :
    (BackupSchedule.EnsureDefaults "operator-version" "0.3.0" (heapOf (fun _ => none))
      (scheduleOf (some 0))).2 = scheduleOf (some 0) ∧
    ((BackupSchedule.EnsureDefaults "operator-version" "0.3.0" (heapOf (fun _ => none))
      (scheduleOf (some 0))).1.cell 0 "operator-version").isSome = true ∧
    (Restore.EnsureDefaults "operator-version" "" emptyHeap (restoreOf none)).2
      = restoreOf none :=
  ⟨(EnsureDefaults_instance_after (storeOf (clusterOf "db" (specOf "" 0 0))) 0
      "operator-version" "0.3.0" (heapOf (fun _ => none)) (backupOf none)
      (scheduleOf (some 0)) (restoreOf none)).2.2.1.1 (Or.inl (by decide)),
   (EnsureDefaults_instance_after (storeOf (clusterOf "db" (specOf "" 0 0))) 0
      "operator-version" "0.3.0" (heapOf (fun _ => none)) (backupOf none)
      (scheduleOf (some 0)) (restoreOf none)).2.2.1.2.1 0 rfl (by decide),
   (EnsureDefaults_instance_after (storeOf (clusterOf "db" (specOf "" 0 0))) 0
      "operator-version" "" emptyHeap (backupOf none)
      (scheduleOf none) (restoreOf none)).2.2.2.1 (Or.inr rfl)⟩

/-- C10, as stated, fails: `EnsureDefaults` with build version "0.3.0" on a backup that has
no labels map leaves that backup without a labels map, so without the operator-version
label, while the backup it returns refers to a new map that holds the label; the two
differ in their `Labels` field. -/
theorem Backup_EnsureDefaults_instance_unlabelled :
    readMap (Backup.EnsureDefaults "operator-version" "0.3.0" emptyHeap (backupOf none)).1
      (backupOf none).Labels = none ∧
    (Backup.EnsureDefaults "operator-version" "0.3.0" emptyHeap (backupOf none)).2.Labels
      = some 0 ∧
    (Backup.EnsureDefaults "operator-version" "0.3.0" emptyHeap (backupOf none)).1.cell 0
      "operator-version" = some "0.3.0" ∧
    (Backup.EnsureDefaults "operator-version" "0.3.0" emptyHeap (backupOf none)).2
      ≠ backupOf none := by
  refine ⟨rfl, by decide, by decide, by decide⟩

/-! ### Validation of a Cluster -/

/-- The violations of a cluster whose replicas are out of range start with the one on the
replicas field. -/
theorem validateCluster_replicas_head (c : Cluster)
    (hr : ¬ (1 ≤ c.Spec.Replicas ∧ c.Spec.Replicas ≤ (MaxInnoDBClusterMembers : Int))) :
    ∃ rest, validateCluster c
      = ⟨"spec.replicas", "must be between 1 and MaxInnoDBClusterMembers"⟩ :: rest := by
  unfold validateCluster
  rw [if_neg hr]
  simp only [List.append_assoc, List.singleton_append]
  exact ⟨_, rfl⟩

/-- The violations of a cluster whose replicas, base server id and version are valid: the
one on the name when it is longer than `ClusterNameMaxLen`, else none. -/
theorem validateCluster_name_only (c : Cluster)
    (hr : 1 ≤ c.Spec.Replicas ∧ c.Spec.Replicas ≤ (MaxInnoDBClusterMembers : Int))
    (hb : 1 ≤ c.Spec.BaseServerID ∧ c.Spec.BaseServerID ≤ maxBaseServerID)
    (hv : c.Spec.Version ∈ validVersions) :
    validateCluster c =
      if c.Name.length ≤ ClusterNameMaxLen then []
      else [⟨"metadata.name", "longer than ClusterNameMaxLen"⟩] := by
  unfold validateCluster
  rw [if_pos hr, if_pos hb, if_pos hv]
  simp

/-- A cluster has a violation on its name exactly when the name is longer than
`ClusterNameMaxLen`. -/
theorem validateCluster_name_iff (c : Cluster) :
    (∃ e ∈ validateCluster c, e.Field = "metadata.name") ↔ ClusterNameMaxLen < c.Name.length := by
  unfold validateCluster
  by_cases hr : 1 ≤ c.Spec.Replicas ∧ c.Spec.Replicas ≤ (MaxInnoDBClusterMembers : Int) <;>
    by_cases hb : 1 ≤ c.Spec.BaseServerID ∧ c.Spec.BaseServerID ≤ maxBaseServerID <;>
    by_cases hv : c.Spec.Version ∈ validVersions <;>
    by_cases hn : c.Name.length ≤ ClusterNameMaxLen <;>
    simp [hr, hb, hv, hn] <;> omega

/-- C12: `Cluster.Validate` on a cluster with 10 replicas, and on any cluster whose
replicas are outside `[1, MaxInnoDBClusterMembers]`, returns an error set that is not
empty and holds a violation on the replicas field. -/
theorem Cluster_Validate_rejects_replicas (c : Cluster)
    (hr : c.Spec.Replicas = 10 ∨ c.Spec.Replicas < 1 ∨
      (MaxInnoDBClusterMembers : Int) < c.Spec.Replicas) :
    ∃ errs, c.Validate = some errs ∧ errs ≠ [] ∧ ∃ e ∈ errs, e.Field = "spec.replicas" := by
  have hk : (MaxInnoDBClusterMembers : Int) = 9 := rfl
  have hn : ¬ (1 ≤ c.Spec.Replicas ∧ c.Spec.Replicas ≤ (MaxInnoDBClusterMembers : Int)) := by
    rw [hk] at hr ⊢
    omega
  obtain ⟨rest, hrest⟩ := validateCluster_replicas_head c hn
  refine ⟨validateCluster c, ?_, ?_, ?_⟩
  · simp [Cluster.Validate, hrest]
  · simp [hrest]
  · exact ⟨_, by rw [hrest]; exact List.mem_cons_self _ _, rfl⟩

/-- C12 at a cluster with 10 replicas that is valid otherwise: the error set is the one
violation on the replicas field. -/
theorem Cluster_Validate_rejects_replicas_witness :
    (clusterOf "db" (specOf "8.0.11" 10 1000)).Validate
        = some [⟨"spec.replicas", "must be between 1 and MaxInnoDBClusterMembers"⟩] ∧
    ∃ errs, (clusterOf "db" (specOf "8.0.11" 10 1000)).Validate = some errs ∧ errs ≠ [] ∧
      ∃ e ∈ errs, e.Field = "spec.replicas" :=
  ⟨by decide,
   Cluster_Validate_rejects_replicas (clusterOf "db" (specOf "8.0.11" 10 1000))
    (Or.inl (by decide))⟩

/-- C13: the name-length limit is enforced exactly at `ClusterNameMaxLen = 28`. A cluster
with a name of 29 characters gets a violation on its name and one with a name of 28
characters gets none; when the cluster is valid otherwise, the 29 character name is its
only violation and the 28 character name passes validation. -/
theorem Cluster_Validate_name_length (c : Cluster) :
    ClusterNameMaxLen = 28 ∧
    (c.Name.length = 29 →
      ∃ errs, c.Validate = some errs ∧ ∃ e ∈ errs, e.Field = "metadata.name") ∧
    (c.Name.length = 28 → ∀ e ∈ validateCluster c, e.Field ≠ "metadata.name") ∧
    ((1 ≤ c.Spec.Replicas ∧ c.Spec.Replicas ≤ (MaxInnoDBClusterMembers : Int)) →
      (1 ≤ c.Spec.BaseServerID ∧ c.Spec.BaseServerID ≤ maxBaseServerID) →
      c.Spec.Version ∈ validVersions →
      (c.Name.length = 29 →
        c.Validate = some [⟨"metadata.name", "longer than ClusterNameMaxLen"⟩]) ∧
      (c.Name.length = 28 → c.Validate = none)) := by
  have hk : ClusterNameMaxLen = 28 := rfl
  refine ⟨hk, fun h29 => ?_, fun h28 e he hf => ?_, fun hr hb hv => ⟨fun h29 => ?_, fun h28 => ?_⟩⟩
  · obtain ⟨e, he, hf⟩ := (validateCluster_name_iff c).2 (by rw [hk, h29]; decide)
    refine ⟨validateCluster c, ?_, e, he, hf⟩
    unfold Cluster.Validate
    cases hl : validateCluster c with
    | nil => rw [hl] at he; cases he
    | cons a l => simp
  · have := (validateCluster_name_iff c).1 ⟨e, he, hf⟩
    rw [hk, h28] at this
    omega
  · have hn : ¬ c.Name.length ≤ ClusterNameMaxLen := by rw [hk, h29]; decide
    simp [Cluster.Validate, validateCluster_name_only c hr hb hv, hn]
  · have hn : c.Name.length ≤ ClusterNameMaxLen := by rw [hk, h28]
    simp [Cluster.Validate, validateCluster_name_only c hr hb hv, hn]

/-- C13 at two clusters that are valid otherwise, with names of 29 and of 28 characters. -/
theorem Cluster_Validate_name_length_witness :
    (clusterOf "abcdefghijklmnopqrstuvwxyz012" (specOf "8.0.11" 3 1000)).Validate
      = some [⟨"metadata.name", "longer than ClusterNameMaxLen"⟩] ∧
    (clusterOf "abcdefghijklmnopqrstuvwxyz01" (specOf "8.0.11" 3 1000)).Validate = none :=
  ⟨((Cluster_Validate_name_length
      (clusterOf "abcdefghijklmnopqrstuvwxyz012" (specOf "8.0.11" 3 1000))).2.2.2
      (by decide) (by decide) (by decide)).1 (by decide),
   ((Cluster_Validate_name_length
      (clusterOf "abcdefghijklmnopqrstuvwxyz01" (specOf "8.0.11" 3 1000))).2.2.2
      (by decide) (by decide) (by decide)).2 (by decide)⟩

/-! ### The defaults of a Cluster -/

/-- C15: the defaults are valid values. When `Replicas`, `BaseServerID` and `Version` are
all zero-valued, the cluster `Cluster.EnsureDefaults` returns has `Replicas` in
`[1, MaxInnoDBClusterMembers]`, `BaseServerID` in `[1, maxBaseServerID]` and `Version` in
`validVersions`; and for every cluster, none of the three is zero-valued in the result. -/
theorem Cluster_EnsureDefaults_defaults_valid (σ : ClusterStore) (c : Ptr) :
    ((σ c).Spec.Replicas = 0 → (σ c).Spec.BaseServerID = 0 → (σ c).Spec.Version = "" →
      (1 ≤ ((Cluster.EnsureDefaults σ c).1 (Cluster.EnsureDefaults σ c).2).Spec.Replicas ∧
        ((Cluster.EnsureDefaults σ c).1 (Cluster.EnsureDefaults σ c).2).Spec.Replicas
          ≤ (MaxInnoDBClusterMembers : Int)) ∧
      (1 ≤ ((Cluster.EnsureDefaults σ c).1 (Cluster.EnsureDefaults σ c).2).Spec.BaseServerID ∧
        ((Cluster.EnsureDefaults σ c).1 (Cluster.EnsureDefaults σ c).2).Spec.BaseServerID
          ≤ maxBaseServerID) ∧
      ((Cluster.EnsureDefaults σ c).1 (Cluster.EnsureDefaults σ c).2).Spec.Version
        ∈ validVersions) ∧
    ((Cluster.EnsureDefaults σ c).1 (Cluster.EnsureDefaults σ c).2).Spec.Replicas ≠ 0 ∧
    ((Cluster.EnsureDefaults σ c).1 (Cluster.EnsureDefaults σ c).2).Spec.BaseServerID ≠ 0 ∧
    ((Cluster.EnsureDefaults σ c).1 (Cluster.EnsureDefaults σ c).2).Spec.Version ≠ "" := by
  rw [Cluster_EnsureDefaults_ptr, Cluster_EnsureDefaults_pointee]
  refine ⟨fun h1 h2 h3 => ?_, ?_, ?_, ?_⟩
  · simp only [h1, h2, h3, if_true]
    decide
  · by_cases h1 : (σ c).Spec.Replicas = 0 <;> simp [h1]
  · by_cases h2 : (σ c).Spec.BaseServerID = 0 <;> simp [h2]
  · by_cases h3 : (σ c).Spec.Version = "" <;> simp [h3]

/-- C15 at a cluster that leaves all three fields out: after defaulting it passes
validation. -/
theorem Cluster_EnsureDefaults_defaults_valid_witness :
    ((Cluster.EnsureDefaults (storeOf (clusterOf "db" (specOf "" 0 0))) 3).1
      (Cluster.EnsureDefaults (storeOf (clusterOf "db" (specOf "" 0 0))) 3).2).Spec.Version
      ∈ validVersions ∧
    Cluster.Validate ((Cluster.EnsureDefaults (storeOf (clusterOf "db" (specOf "" 0 0))) 3).1
      (Cluster.EnsureDefaults (storeOf (clusterOf "db" (specOf "" 0 0))) 3).2) = none :=
  ⟨((Cluster_EnsureDefaults_defaults_valid (storeOf (clusterOf "db" (specOf "" 0 0))) 3).1
      rfl rfl rfl).2.2,
   by decide⟩

/-! ### Backup phases -/

/-- A terminal phase has no successor. -/
theorem backupPhaseSuccessors_terminal (p : BackupPhase)
    (h : p = BackupPhaseComplete ∨ p = BackupPhaseFailed) : backupPhaseSuccessors p = [] := by
  rcases h with h | h <;> subst h <;> decide

/-- A successor of a phase is further along than the phase. -/
theorem backupPhaseSuccessors_rank (p q : BackupPhase) (h : q ∈ backupPhaseSuccessors p) :
    backupPhaseRank p < backupPhaseRank q := by
  unfold backupPhaseSuccessors at h
  split_ifs at h with h1 h2 h3
  · have hq : q = BackupPhaseScheduled := by simpa using h
    subst hq
    have hp : backupPhaseRank p = 0 := by rcases h1 with h1 | h1 <;> subst h1 <;> decide
    rw [hp]
    decide
  · have hq : q = BackupPhaseStarted := by simpa using h
    subst hq
    have hp : backupPhaseRank p = 1 := by subst h2; decide
    rw [hp]
    decide
  · have hp : backupPhaseRank p = 2 := by subst h3; decide
    rw [hp]
    have hq : q = BackupPhaseComplete ∨ q = BackupPhaseFailed := by simpa using h
    rcases hq with hq | hq <;> subst hq <;> decide
  · simp at h

/-- An accepted status write changes the phase to the one asked for, to a successor of the
old one, and changes nothing else. -/
theorem BackupStatus_transition_ok (s s' : BackupStatus) (next : BackupPhase)
    (h : s.transition next = .ok s') :
    next ∈ backupPhaseSuccessors s.Phase ∧ s' = { s with Phase := next } := by
  unfold BackupStatus.transition at h
  split_ifs at h with hm
  exact ⟨hm, by cases h; rfl⟩

/-- C14: backup phases only move forward along
`New → Scheduled → Started → {Complete | Failed}`. A status write from `Complete` to
`Started` is rejected as illegal; every status write on a backup in a terminal phase,
`Complete` or `Failed`, is rejected; an accepted write moves the phase strictly further
along and changes no other field; and along any sequence of accepted writes no phase comes
back. -/
theorem BackupStatus_transition_forward (s : BackupStatus) (next : BackupPhase) :
    (s.Phase = BackupPhaseComplete →
      s.transition BackupPhaseStarted = .error "illegal phase transition") ∧
    (s.Phase = BackupPhaseComplete ∨ s.Phase = BackupPhaseFailed →
      s.transition next = .error "illegal phase transition") ∧
    (∀ s', s.transition next = .ok s' →
      s' = { s with Phase := next } ∧ backupPhaseRank s.Phase < backupPhaseRank s'.Phase) ∧
    (∀ run : List BackupStatus,
      List.Chain' (fun a b => a.transition b.Phase = .ok b) run →
      List.Pairwise (fun a b => backupPhaseRank a.Phase < backupPhaseRank b.Phase) run) := by
  refine ⟨fun h => ?_, fun h => ?_, fun s' h => ?_, fun run hrun => ?_⟩
  · simp [BackupStatus.transition, backupPhaseSuccessors_terminal s.Phase (Or.inl h)]
  · simp [BackupStatus.transition, backupPhaseSuccessors_terminal s.Phase h]
  · obtain ⟨hm, hs⟩ := BackupStatus_transition_ok s s' next h
    refine ⟨hs, ?_⟩
    rw [hs]
    exact backupPhaseSuccessors_rank s.Phase next hm
  · haveI : IsTrans BackupStatus
        (fun a b => backupPhaseRank a.Phase < backupPhaseRank b.Phase) :=
      ⟨fun _ _ _ h1 h2 => Nat.lt_trans h1 h2⟩
    refine List.chain'_iff_pairwise.mp (hrun.imp ?_)
    intro a b hab
    exact backupPhaseSuccessors_rank a.Phase b.Phase (BackupStatus_transition_ok a b b.Phase hab).1

/-- C14 at a completed backup: the write to `Started` is rejected, and so is the write to
`Failed`; at a started backup the write to `Complete` is accepted. -/
theorem BackupStatus_transition_forward_witness :
    BackupStatus.transition ⟨BackupPhaseComplete, ⟨"s3://backups/nightly"⟩, 10, 20⟩
      BackupPhaseStarted = .error "illegal phase transition" ∧
    BackupStatus.transition ⟨BackupPhaseComplete, ⟨"s3://backups/nightly"⟩, 10, 20⟩
      BackupPhaseFailed = .error "illegal phase transition" ∧
    BackupStatus.transition ⟨BackupPhaseStarted, ⟨""⟩, 10, 0⟩ BackupPhaseComplete
      = .ok ⟨BackupPhaseComplete, ⟨""⟩, 10, 0⟩ :=
  ⟨(BackupStatus_transition_forward ⟨BackupPhaseComplete, ⟨"s3://backups/nightly"⟩, 10, 20⟩
      BackupPhaseFailed).1 rfl,
   (BackupStatus_transition_forward ⟨BackupPhaseComplete, ⟨"s3://backups/nightly"⟩, 10, 20⟩
      BackupPhaseFailed).2.1 (Or.inl rfl),
   rfl⟩

/-! ### Listing backup schedules through the fake client -/

/-- The loop of `List`, started on any list: it appends the items that pass the test, in
their order. -/
theorem appendLoop_eq_filter {α : Type} (keep : α → Bool) (items acc : List α) :
    items.foldl (fun acc item => if keep item then acc ++ [item] else acc) acc
      = acc ++ items.filter keep := by
  induction items generalizing acc with
  | nil => simp
  | cons x xs ih =>
    rw [List.foldl_cons, ih]
    by_cases hx : keep x <;> simp [hx]

/-- What `List` returns when the store returns a list: the items the selector in force
matches, in a list with empty metadata, and the error of the store. -/
theorem FakeBackupSchedules_List_some (extract : ListOptions → Option labels.Selector)
    (h : MapHeap) (c : FakeBackupSchedules) (opts : ListOptions) (obj : BackupScheduleList)
    (err : Option String)
    (hobj : c.Fake.Invokes ⟨backupschedulesResource, backupschedulesKind, c.ns, opts⟩
      zeroBackupScheduleList = (some obj, err)) :
    FakeBackupSchedules.List extract h c opts =
      (some { zeroBackupScheduleList with
          Items := obj.Items.filter (fun item =>
            ((extract opts).getD labels.Everything).Matches (readMap h item.Labels)) },
       err) := by
  unfold FakeBackupSchedules.List
  simp only [hobj]
  rw [appendLoop_eq_filter]
  cases extract opts <;> simp

/-- C11: when the store returns a list, `List` returns a list and the error of the store,
and the items of that list are exactly the items of the store's list whose labels the
label selector of the options matches: the same items, in their order, each as often as it
is in the store's list. When no label selector is read out of the options, they are all
the items. -/
theorem FakeBackupSchedules_List_filters (extract : ListOptions → Option labels.Selector)
    (h : MapHeap) (c : FakeBackupSchedules) (opts : ListOptions) (obj : BackupScheduleList)
    (err : Option String)
    (hobj : c.Fake.Invokes ⟨backupschedulesResource, backupschedulesKind, c.ns, opts⟩
      zeroBackupScheduleList = (some obj, err)) :
    ∃ res, FakeBackupSchedules.List extract h c opts = (some res, err) ∧
      res.Items = obj.Items.filter (fun item =>
        ((extract opts).getD labels.Everything).Matches (readMap h item.Labels)) ∧
      res.Items.Sublist obj.Items ∧
      (∀ item, item ∈ res.Items ↔ item ∈ obj.Items ∧
        ((extract opts).getD labels.Everything).Matches (readMap h item.Labels) = true) ∧
      (∀ item,
        ((extract opts).getD labels.Everything).Matches (readMap h item.Labels) = true →
        res.Items.count item = obj.Items.count item) ∧
      (extract opts = none → res.Items = obj.Items) := by
  refine ⟨_, FakeBackupSchedules_List_some extract h c opts obj err hobj, rfl, ?_, ?_, ?_, ?_⟩
  · exact List.filter_sublist _
  · intro item
    simp [List.mem_filter]
  · intro item hitem
    exact List.count_filter (l := obj.Items)
      (p := fun it => ((extract opts).getD labels.Everything).Matches (readMap h it.Labels)) hitem
  · intro hnone
    simp [hnone, labels.Everything]

/-- C11 at a store of three schedules, the first and the last labelled `tier=db`: with the
selector `tier=db` the list returned holds those two, in that order; with options that
hold no selector it holds all three. -/
theorem FakeBackupSchedules_List_filters_witness :
    (∃ res, FakeBackupSchedules.List extractTier
        (heapOf (fun k => if k = "tier" then some "db" else none))
        (fakeOf [scheduleNamed "a" (some 0), scheduleNamed "b" none, scheduleNamed "c" (some 0)])
        (optsOf "tier=db") = (some res, none) ∧
      res.Items = [scheduleNamed "a" (some 0), scheduleNamed "c" (some 0)]) ∧
    (∃ res, FakeBackupSchedules.List extractTier
        (heapOf (fun k => if k = "tier" then some "db" else none))
        (fakeOf [scheduleNamed "a" (some 0), scheduleNamed "b" none, scheduleNamed "c" (some 0)])
        (optsOf "") = (some res, none) ∧
      res.Items
        = [scheduleNamed "a" (some 0), scheduleNamed "b" none, scheduleNamed "c" (some 0)]) := by
  constructor
  · obtain ⟨res, h1, h2, _⟩ := FakeBackupSchedules_List_filters extractTier
      (heapOf (fun k => if k = "tier" then some "db" else none))
      (fakeOf [scheduleNamed "a" (some 0), scheduleNamed "b" none, scheduleNamed "c" (some 0)])
      (optsOf "tier=db") _ none rfl
    exact ⟨res, h1, by rw [h2]; rfl⟩
  · obtain ⟨res, h1, _, _, _, _, h6⟩ := FakeBackupSchedules_List_filters extractTier
      (heapOf (fun k => if k = "tier" then some "db" else none))
      (fakeOf [scheduleNamed "a" (some 0), scheduleNamed "b" none, scheduleNamed "c" (some 0)])
      (optsOf "") _ none rfl
    exact ⟨res, h1, h6 rfl⟩

end v1alpha1
